import Mathlib

/-!
# Verification of `aihwkit.simulator.configs.configs`

A shallow embedding of the four RPU configuration dataclasses of
`src/aihwkit/simulator/configs/configs.py` (IBM-aihwkit), together with
proofs of the specification claims about them.

Floating-point numeric fields of the Python source (diffusion and lifetime
coefficients, noise values) are modelled as rationals; the claims only
compare them against zero.

The nested parameter bundles (`IOParameters`, `UpdateParameters`, the device
classes, noise models, clip/modifier parameters) and the translator
`tile_parameters_to_bindings` live in sibling modules of the repository
(`devices.py`, `utils.py`, `noise_models.py`) that are not part of the
source excerpt; where a claim depends on them they are modelled from the
specification, and such definitions are marked `Modelled from the spec:`.
-/

/-- Modelled from the spec: `IOParameters` (aihwkit.simulator.configs.utils,
not in the source excerpt) describes forward/backward signal non-idealities:
"noise, bound, perfection flag".  The perfection flag defaults to off; the
Inference variant's fixed backward sentinel is `IOParameters(is_perfect=True)`. -/
structure IOParameters where
  is_perfect : Bool := false
  out_noise : ℚ := 0
  bound : ℚ := 0
deriving DecidableEq, Repr

/-- Modelled from the spec: the pulse-generation scheme selector of
`UpdateParameters`, including the "no pulsing" sentinel mode `NONE`. -/
inductive PulseType where
  | NONE
  | StochasticCompressed
deriving DecidableEq, Repr

/-- Modelled from the spec: `UpdateParameters` (aihwkit.simulator.configs.utils,
not in the source excerpt) describes the update-pulse scheme; its default is a
pulsing mode, and `PulseType.NONE` is the "no pulsing" sentinel. -/
structure UpdateParameters where
  pulse_type : PulseType := PulseType.StochasticCompressed
deriving DecidableEq, Repr

/-- Modelled from the spec: `FloatingPointDevice`
(aihwkit.simulator.configs.devices, not in the source excerpt); its default
profile disables diffusion and decay (both coefficients zero). -/
structure FloatingPointDevice where
  diffusion : ℚ := 0
  lifetime : ℚ := 0
deriving DecidableEq, Repr

/-- Modelled from the spec: `PulsedDevice`
(aihwkit.simulator.configs.devices, not in the source excerpt), carrying its
own decay/diffusion settings; the default profile (also for the
`ConstantStepDevice` default subclass used by `SingleRPUConfig`) disables
both (coefficients zero). -/
structure PulsedDevice where
  diffusion : ℚ := 0
  lifetime : ℚ := 0
deriving DecidableEq, Repr

/-- Modelled from the spec: `IdealDevice`
(aihwkit.simulator.configs.devices, not in the source excerpt); the ideal
device profile by definition disables diffusion and decay. -/
structure IdealDevice where
  diffusion : ℚ := 0
  lifetime : ℚ := 0
deriving DecidableEq, Repr

/-- Modelled from the spec: `UnitCellDevice`
(aihwkit.simulator.configs.devices, not in the source excerpt): an ordered
sequence of pulsed-device parameter bundles, empty by default. -/
structure UnitCellDevice where
  unit_cell_devices : List PulsedDevice := []
deriving DecidableEq, Repr

/-- Modelled from the spec: `PCMLikeNoiseModel` / `BaseNoiseModel`
(aihwkit.simulator.noise_models, not in the source excerpt).  An opaque
external parameter bundle; none of the claims inspect its content. -/
structure BaseNoiseModel where
deriving DecidableEq, Repr

/-- Modelled from the spec: `GlobalDriftCompensation` / `BaseDriftCompensation`
(aihwkit.simulator.noise_models, not in the source excerpt).  Opaque. -/
structure BaseDriftCompensation where
deriving DecidableEq, Repr

/-- Modelled from the spec: `WeightClipParameter`
(aihwkit.simulator.configs.utils, not in the source excerpt).  Opaque. -/
structure WeightClipParameter where
deriving DecidableEq, Repr

/-- Modelled from the spec: `WeightModifierParameter`
(aihwkit.simulator.configs.utils, not in the source excerpt).  Opaque. -/
structure WeightModifierParameter where
deriving DecidableEq, Repr

/-- The flat parameter shape shared by the device kinds, used by the
translation model to flatten heterogeneous device bundles. -/
structure DeviceParams where
  diffusion : ℚ := 0
  lifetime : ℚ := 0
deriving DecidableEq, Repr

def FloatingPointDevice.toParams (d : FloatingPointDevice) : DeviceParams :=
  { diffusion := d.diffusion, lifetime := d.lifetime }

def PulsedDevice.toParams (d : PulsedDevice) : DeviceParams :=
  { diffusion := d.diffusion, lifetime := d.lifetime }

def IdealDevice.toParams (d : IdealDevice) : DeviceParams :=
  { diffusion := d.diffusion, lifetime := d.lifetime }

/-- Modelled from the spec: the native engine's analog-tile parameter object
produced by `tile_parameters_to_bindings` (aihwkit.simulator.configs.utils,
not in the source excerpt): "the device-physics parameters (flattened, with
unit-cell order preserved when composite), forward I/O parameters, backward
I/O parameters, update parameters". -/
structure AnalogTileParameter where
  device_params : List DeviceParams
  forward : IOParameters
  backward : IOParameters
  update : UpdateParameters
deriving DecidableEq, Repr

/-- The class-level native-bindings marker type: `ClassVar` annotations
`bindings_class: ClassVar[Type] = devices.AnalogTileParameter` in the source. -/
inductive BindingsClass where
  | AnalogTileParameter
deriving DecidableEq, Repr

/-- The four configuration variants of `configs.py`. -/
inductive ConfigVariant where
  | FloatingPoint
  | Single
  | UnitCell
  | Inference
deriving DecidableEq, Repr

/-- `FloatingPointRPUConfig`: a single mutable `device` field defaulted to a
floating-point device bundle (`field(default_factory=FloatingPointDevice)`). -/
structure FloatingPointRPUConfig where
  device : FloatingPointDevice := {}
deriving DecidableEq, Repr

/-- `FloatingPointRPUConfig.requires_diffusion`:
`return self.device.diffusion > 0.0`. -/
def FloatingPointRPUConfig.requires_diffusion (c : FloatingPointRPUConfig) : Bool :=
  decide (c.device.diffusion > 0)

/-- `FloatingPointRPUConfig.requires_decay`:
`return self.device.lifetime > 0.0`. -/
def FloatingPointRPUConfig.requires_decay (c : FloatingPointRPUConfig) : Bool :=
  decide (c.device.lifetime > 0)

/-- `SingleRPUConfig`: device (default `ConstantStepDevice`), forward,
backward, update, each with a default factory. -/
structure SingleRPUConfig where
  device : PulsedDevice := {}
  forward : IOParameters := {}
  backward : IOParameters := {}
  update : UpdateParameters := {}
deriving DecidableEq, Repr

/-- `SingleRPUConfig.bindings_class`: the class-level (`ClassVar`) marker
`devices.AnalogTileParameter` — a class attribute, not an instance field. -/
def SingleRPUConfig.bindings_class : BindingsClass :=
  BindingsClass.AnalogTileParameter

/-- `SingleRPUConfig.requires_diffusion`:
`return self.device.diffusion > 0.0`. -/
def SingleRPUConfig.requires_diffusion (c : SingleRPUConfig) : Bool :=
  decide (c.device.diffusion > 0)

/-- `SingleRPUConfig.requires_decay`:
`return self.device.lifetime > 0.0`. -/
def SingleRPUConfig.requires_decay (c : SingleRPUConfig) : Bool :=
  decide (c.device.lifetime > 0)

/-- `SingleRPUConfig.as_bindings`: `return tile_parameters_to_bindings(self)`.
Modelled from the spec: the translator itself (aihwkit.simulator.configs.utils,
not in the source excerpt) is "a pure function that maps a populated
configuration variant into the native engine's flat parameter object". -/
def SingleRPUConfig.as_bindings (c : SingleRPUConfig) :
    Except String AnalogTileParameter :=
  Except.ok
    { device_params := [c.device.toParams]
      forward := c.forward
      backward := c.backward
      update := c.update }

/-- `UnitCellRPUConfig`: device (default `UnitCellDevice`), forward,
backward, update, each with a default factory. -/
structure UnitCellRPUConfig where
  device : UnitCellDevice := {}
  forward : IOParameters := {}
  backward : IOParameters := {}
  update : UpdateParameters := {}
deriving DecidableEq, Repr

/-- `UnitCellRPUConfig.bindings_class`: the class-level (`ClassVar`) marker
`devices.AnalogTileParameter`. -/
def UnitCellRPUConfig.bindings_class : BindingsClass :=
  BindingsClass.AnalogTileParameter

/-- `UnitCellRPUConfig.requires_diffusion`:
`return any([dev.diffusion > 0.0 for dev in self.device.unit_cell_devices])`. -/
def UnitCellRPUConfig.requires_diffusion (c : UnitCellRPUConfig) : Bool :=
  c.device.unit_cell_devices.any (fun dev => decide (dev.diffusion > 0))

/-- `UnitCellRPUConfig.requires_decay`:
`return any([dev.lifetime > 0.0 for dev in self.device.unit_cell_devices])`. -/
def UnitCellRPUConfig.requires_decay (c : UnitCellRPUConfig) : Bool :=
  c.device.unit_cell_devices.any (fun dev => decide (dev.lifetime > 0))

/-- `UnitCellRPUConfig.as_bindings`: `return tile_parameters_to_bindings(self)`.
Modelled from the spec: the translator (aihwkit.simulator.configs.utils, not
in the source excerpt) "must recursively flatten every sub-device in the unit
cell into the native representation's expected multi-device layout, preserving
order" and "must reject (fail) an empty unit cell". -/
def UnitCellRPUConfig.as_bindings (c : UnitCellRPUConfig) :
    Except String AnalogTileParameter :=
  if c.device.unit_cell_devices.isEmpty then
    Except.error "ValueError: empty unit cell cannot be translated"
  else
    Except.ok
      { device_params := c.device.unit_cell_devices.map PulsedDevice.toParams
        forward := c.forward
        backward := c.backward
        update := c.update }

/-- The fixed backward sentinel of the Inference variant:
`IOParameters(is_perfect=True)`. -/
def perfectBackwardSentinel : IOParameters :=
  { is_perfect := true }

/-- The fixed update sentinel of the Inference variant:
`UpdateParameters(pulse_type=PulseType.NONE)`. -/
def noPulseUpdateSentinel : UpdateParameters :=
  { pulse_type := PulseType.NONE }

/-- `InferenceRPUConfig`: caller-facing fields `forward`, `noise_model`,
`drift_compensation`, `clip`, `modifier`; plus the three fields declared with
`init=False` (excluded from `__init__`) whose default factories are the ideal
device, `IOParameters(is_perfect=True)` and
`UpdateParameters(pulse_type=PulseType.NONE)`.  The source marks the latter
with the comment "should be treated as read-only", but the dataclass is not
frozen, so Python attribute assignment on an instance remains possible. -/
structure InferenceRPUConfig where
  forward : IOParameters := {}
  noise_model : BaseNoiseModel := {}
  drift_compensation : BaseDriftCompensation := {}
  clip : WeightClipParameter := {}
  modifier : WeightModifierParameter := {}
  device : IdealDevice := {}
  backward : IOParameters := perfectBackwardSentinel
  update : UpdateParameters := noPulseUpdateSentinel
deriving DecidableEq, Repr

/-- `InferenceRPUConfig.bindings_class`: the class-level (`ClassVar`) marker
`devices.AnalogTileParameter`. -/
def InferenceRPUConfig.bindings_class : BindingsClass :=
  BindingsClass.AnalogTileParameter

/-- `InferenceRPUConfig.requires_diffusion`:
`return self.device.diffusion > 0.0`. -/
def InferenceRPUConfig.requires_diffusion (c : InferenceRPUConfig) : Bool :=
  decide (c.device.diffusion > 0)

/-- `InferenceRPUConfig.requires_decay`:
`return self.device.lifetime > 0.0`. -/
def InferenceRPUConfig.requires_decay (c : InferenceRPUConfig) : Bool :=
  decide (c.device.lifetime > 0)

/-- `InferenceRPUConfig.as_bindings`: `return tile_parameters_to_bindings(self)`,
operating on the fixed device/backward/update triple plus the configured
forward I/O.  Modelled from the spec for the translator itself (not in the
source excerpt). -/
def InferenceRPUConfig.as_bindings (c : InferenceRPUConfig) :
    Except String AnalogTileParameter :=
  Except.ok
    { device_params := [c.device.toParams]
      forward := c.forward
      backward := c.backward
      update := c.update }

/-- The keyword arguments a caller may attempt to pass to
`InferenceRPUConfig(...)`.  The dataclass-generated `__init__` only has
parameters for the five `init=True` fields; we also record attempts to pass
the three excluded names so that their rejection can be stated. -/
structure InferenceInitKwargs where
  forward : Option IOParameters := none
  noise_model : Option BaseNoiseModel := none
  drift_compensation : Option BaseDriftCompensation := none
  clip : Option WeightClipParameter := none
  modifier : Option WeightModifierParameter := none
  device : Option IdealDevice := none
  backward : Option IOParameters := none
  update : Option UpdateParameters := none
deriving DecidableEq, Repr

/-- The dataclass-generated `__init__` of `InferenceRPUConfig`: keyword
arguments for `device`, `backward` or `update` raise `TypeError` (those
fields are declared `init=False`); the accepted arguments default to the
field default factories, and the three excluded fields are always
initialized from their fixed default factories. -/
def InferenceRPUConfig.init (kw : InferenceInitKwargs) :
    Except String InferenceRPUConfig :=
  if kw.device.isSome then
    Except.error "TypeError: unexpected keyword argument device"
  else if kw.backward.isSome then
    Except.error "TypeError: unexpected keyword argument backward"
  else if kw.update.isSome then
    Except.error "TypeError: unexpected keyword argument update"
  else
    Except.ok
      { forward := kw.forward.getD {}
        noise_model := kw.noise_model.getD {}
        drift_compensation := kw.drift_compensation.getD {}
        clip := kw.clip.getD {}
        modifier := kw.modifier.getD {}
        device := {}
        backward := perfectBackwardSentinel
        update := noPulseUpdateSentinel }

/-- Python attribute assignment `cfg.backward = value` on an
`InferenceRPUConfig` instance: the dataclass is not declared frozen, so the
assignment succeeds and replaces the field. -/
def InferenceRPUConfig.setBackward (c : InferenceRPUConfig)
    (b : IOParameters) : InferenceRPUConfig :=
  { c with backward := b }

/-- Python attribute assignment `cfg.forward = value` on an
`InferenceRPUConfig` instance. -/
def InferenceRPUConfig.setForward (c : InferenceRPUConfig)
    (f : IOParameters) : InferenceRPUConfig :=
  { c with forward := f }

/-- Python attribute assignment `cfg.device.diffusion = value` on a
`SingleRPUConfig` instance. -/
def SingleRPUConfig.setDeviceDiffusion (c : SingleRPUConfig)
    (x : ℚ) : SingleRPUConfig :=
  { c with device := { c.device with diffusion := x } }

/-- Whether an `Except` value is a success. -/
def exceptOk {ε α : Type} (e : Except ε α) : Bool :=
  match e with
  | Except.ok _ => true
  | Except.error _ => false

/-- The class-level native-bindings marker of each variant: present as the
`ClassVar` attribute `bindings_class` on `SingleRPUConfig`,
`UnitCellRPUConfig` and `InferenceRPUConfig`; `FloatingPointRPUConfig`
declares no such attribute. -/
def variantBindingsClass : ConfigVariant → Option BindingsClass
  | ConfigVariant.FloatingPoint => none
  | ConfigVariant.Single => some SingleRPUConfig.bindings_class
  | ConfigVariant.UnitCell => some UnitCellRPUConfig.bindings_class
  | ConfigVariant.Inference => some InferenceRPUConfig.bindings_class

/-- Claim C1 (counterexample): the Inference configuration's `backward`
field does NOT always equal the perfect-I/O sentinel regardless of override
attempts: the dataclass is not frozen, so Python attribute assignment after
construction succeeds, and on the default-constructed instance assigning a
non-perfect `IOParameters` leaves `backward` different from the sentinel. -/
theorem inference_backward_override_succeeds :
    (InferenceRPUConfig.setBackward {} {}).backward ≠ perfectBackwardSentinel := by
  decide

/-- Claim C1 (amended): for every Inference configuration obtained from the
public constructor, `backward` equals the perfect-I/O sentinel and `update`
equals the no-pulse sentinel — the constructor cannot override them — and
mutation of the caller-facing `forward` field leaves both sentinels in
place; the fields are read-only by convention only, so direct attribute
assignment to them can still change them. -/
theorem inference_sentinels_fixed_at_construction (kw : InferenceInitKwargs)
    (c : InferenceRPUConfig) (f : IOParameters)
    (h : InferenceRPUConfig.init kw = Except.ok c) :
    c.backward = perfectBackwardSentinel ∧ c.update = noPulseUpdateSentinel ∧
    (c.setForward f).backward = perfectBackwardSentinel ∧
    (c.setForward f).update = noPulseUpdateSentinel := by
  unfold InferenceRPUConfig.init at h
  split at h
  · simp at h
  · split at h
    · simp at h
    · split at h
      · simp at h
      · injection h with h
        subst h
        exact ⟨rfl, rfl, rfl, rfl⟩

/-- Claim C1 (witness for the amended claim): the default construction. -/
theorem inference_sentinels_fixed_at_construction_witness :
    ({} : InferenceRPUConfig).backward = perfectBackwardSentinel ∧
    ({} : InferenceRPUConfig).update = noPulseUpdateSentinel ∧
    (({} : InferenceRPUConfig).setForward { out_noise := 1/20 }).backward
      = perfectBackwardSentinel ∧
    (({} : InferenceRPUConfig).setForward { out_noise := 1/20 }).update
      = noPulseUpdateSentinel :=
  inference_sentinels_fixed_at_construction {} {} { out_noise := 1/20 } rfl

/-- Claim C2: passing a `device`, `backward` or `update` keyword to the
Inference constructor fails with a `TypeError` (those fields are
`init=False`), and every successful construction yields `backward` equal to
the perfect-I/O sentinel and `update` equal to the no-pulse sentinel. -/
theorem inference_init_rejects_fixed_fields (kw : InferenceInitKwargs) :
    ((kw.device.isSome = true ∨ kw.backward.isSome = true ∨
        kw.update.isSome = true) →
      exceptOk (InferenceRPUConfig.init kw) = false) ∧
    (∀ c, InferenceRPUConfig.init kw = Except.ok c →
      c.backward = perfectBackwardSentinel ∧ c.update = noPulseUpdateSentinel) := by
  constructor
  · intro h
    unfold InferenceRPUConfig.init
    split
    · rfl
    · split
      · rfl
      · split
        · rfl
        · rename_i h1 h2 h3
          rcases h with h | h | h
          · exact absurd h h1
          · exact absurd h h2
          · exact absurd h h3
  · intro c h
    unfold InferenceRPUConfig.init at h
    split at h
    · simp at h
    · split at h
      · simp at h
      · split at h
        · simp at h
        · injection h with h
          subst h
          exact ⟨rfl, rfl⟩

/-- Claim C2 (witness): passing `backward` concretely is rejected, and the
default construction carries both sentinels. -/
theorem inference_init_rejects_fixed_fields_witness :
    exceptOk (InferenceRPUConfig.init { backward := some {} }) = false ∧
    (({} : InferenceRPUConfig).backward = perfectBackwardSentinel ∧
      ({} : InferenceRPUConfig).update = noPulseUpdateSentinel) :=
  ⟨(inference_init_rejects_fixed_fields { backward := some {} }).1
      (Or.inr (Or.inl rfl)),
    (inference_init_rejects_fixed_fields {}).2 {} rfl⟩

/-- Claim C3: for every Unit-Cell configuration, `requires_decay` is true
iff some sub-device has strictly positive lifetime, and `requires_diffusion`
is true iff some sub-device has strictly positive diffusion — the logical OR
over the unit cell. -/
theorem unitcell_queries_are_or_over_subdevices (c : UnitCellRPUConfig) :
    (c.requires_decay = true ↔
      ∃ dev ∈ c.device.unit_cell_devices, dev.lifetime > 0) ∧
    (c.requires_diffusion = true ↔
      ∃ dev ∈ c.device.unit_cell_devices, dev.diffusion > 0) := by
  constructor <;>
    simp [UnitCellRPUConfig.requires_decay, UnitCellRPUConfig.requires_diffusion]

/-- Claim C4: for every Floating-point configuration, `requires_diffusion`
is true iff the device's diffusion coefficient is strictly positive, and
`requires_decay` is true iff its lifetime is strictly positive. -/
theorem floating_point_queries_iff_positive (c : FloatingPointRPUConfig) :
    (c.requires_diffusion = true ↔ c.device.diffusion > 0) ∧
    (c.requires_decay = true ↔ c.device.lifetime > 0) := by
  constructor <;>
    simp [FloatingPointRPUConfig.requires_diffusion,
      FloatingPointRPUConfig.requires_decay]

/-- Claim C5: `SingleRPUConfig.requires_diffusion` reflects the device field
at call time with no caching: after setting the diffusion coefficient to a
positive value the query is true, after setting it back to zero it is false,
and in general the query after any mutation equals the positivity of the
value just written. -/
theorem single_requires_diffusion_tracks_device (c : SingleRPUConfig)
    (p x : ℚ) (hp : 0 < p) :
    (c.setDeviceDiffusion p).requires_diffusion = true ∧
    ((c.setDeviceDiffusion p).setDeviceDiffusion 0).requires_diffusion = false ∧
    (c.setDeviceDiffusion x).requires_diffusion = decide (0 < x) := by
  refine ⟨?_, ?_, ?_⟩ <;>
    simp [SingleRPUConfig.requires_diffusion, SingleRPUConfig.setDeviceDiffusion, hp]

/-- Claim C5 (witness): the default Single configuration with the diffusion
coefficient set to 1 and then back to 0. -/
theorem single_requires_diffusion_tracks_device_witness :
    (({} : SingleRPUConfig).setDeviceDiffusion 1).requires_diffusion = true ∧
    ((({} : SingleRPUConfig).setDeviceDiffusion 1).setDeviceDiffusion 0).requires_diffusion
      = false ∧
    (({} : SingleRPUConfig).setDeviceDiffusion 0).requires_diffusion = decide ((0:ℚ) < 0) :=
  single_requires_diffusion_tracks_device {} 1 0 (by norm_num)

/-- Claim C6: translating a Unit-Cell configuration whose unit cell contains
zero sub-devices fails rather than producing a default translation. -/
theorem unitcell_as_bindings_rejects_empty (c : UnitCellRPUConfig)
    (h : c.device.unit_cell_devices = []) :
    exceptOk c.as_bindings = false := by
  simp [UnitCellRPUConfig.as_bindings, h, exceptOk]

/-- Claim C6 (witness): the default Unit-Cell configuration has an empty
unit cell and its translation fails. -/
theorem unitcell_as_bindings_rejects_empty_witness :
    exceptOk ({} : UnitCellRPUConfig).as_bindings = false :=
  unitcell_as_bindings_rejects_empty {} rfl

/-- Claim C7: the Single, Unit-Cell and Inference variants carry the same
class-level native-bindings marker (the analog-tile parameter type), and the
Floating-point variant carries none. -/
theorem bindings_class_markers_shared :
    SingleRPUConfig.bindings_class = UnitCellRPUConfig.bindings_class ∧
    UnitCellRPUConfig.bindings_class = InferenceRPUConfig.bindings_class ∧
    variantBindingsClass ConfigVariant.Single
      = some BindingsClass.AnalogTileParameter ∧
    variantBindingsClass ConfigVariant.FloatingPoint = none :=
  ⟨rfl, rfl, rfl, rfl⟩

/-- Claim C8: all four variants construct with no arguments, and on the
default instances both capability queries return false (every default device
profile disables diffusion and decay). -/
theorem default_construction_disables_diffusion_and_decay :
    ({} : FloatingPointRPUConfig).requires_diffusion = false ∧
    ({} : FloatingPointRPUConfig).requires_decay = false ∧
    ({} : SingleRPUConfig).requires_diffusion = false ∧
    ({} : SingleRPUConfig).requires_decay = false ∧
    ({} : UnitCellRPUConfig).requires_diffusion = false ∧
    ({} : UnitCellRPUConfig).requires_decay = false ∧
    InferenceRPUConfig.init {} = Except.ok {} ∧
    ({} : InferenceRPUConfig).requires_diffusion = false ∧
    ({} : InferenceRPUConfig).requires_decay = false :=
  ⟨rfl, rfl, rfl, rfl, rfl, rfl, rfl, rfl, rfl⟩

/-- Claim C9: `SingleRPUConfig.as_bindings` is a deterministic, referentially
transparent function of the current field values: two configurations with
field-by-field equal content translate to field-by-field equal native
parameter objects. -/
theorem single_as_bindings_deterministic (c₁ c₂ : SingleRPUConfig)
    (hd : c₁.device = c₂.device) (hf : c₁.forward = c₂.forward)
    (hb : c₁.backward = c₂.backward) (hu : c₁.update = c₂.update) :
    c₁.as_bindings = c₂.as_bindings := by
  simp [SingleRPUConfig.as_bindings, hd, hf, hb, hu]

/-- Claim C9 (witness): two translations of the default Single configuration
agree. -/
theorem single_as_bindings_deterministic_witness :
    ({} : SingleRPUConfig).as_bindings = ({} : SingleRPUConfig).as_bindings :=
  single_as_bindings_deterministic {} {} rfl rfl rfl rfl

/-- Claim C10: on a Unit-Cell configuration with zero sub-devices the
capability queries do not fail: both return false (the OR over an empty
sequence). -/
theorem unitcell_empty_queries_false (c : UnitCellRPUConfig)
    (h : c.device.unit_cell_devices = []) :
    c.requires_diffusion = false ∧ c.requires_decay = false := by
  simp [UnitCellRPUConfig.requires_diffusion, UnitCellRPUConfig.requires_decay, h]

/-- Claim C10 (witness): the default Unit-Cell configuration. -/
theorem unitcell_empty_queries_false_witness :
    ({} : UnitCellRPUConfig).requires_diffusion = false ∧
    ({} : UnitCellRPUConfig).requires_decay = false :=
  unitcell_empty_queries_false {} rfl
